import Mathlib

/-!
# Home security system sketch (`src/main.cpp`): embedding and properties

The sketch is a single control loop over global variables.  The globals become the
fields of `State`; every function of the sketch becomes a function from the state
(and the values the hardware returns during the call) to the new state and the list of
hardware calls it made, in program order.

Conventions of the embedding:

* `int` is the 16-bit signed integer of the AVR boards this sketch targets (pins 22 to 39
  exist only there), `long` is 32-bit signed, `unsigned long` is 32-bit unsigned.  Values
  are `Int`; `wrap16`, `wrap32` and `toULong` are applied where the sketch computes or
  converts a value that could leave its type.
* An Arduino `String` is a `List Char`.
* `char` is a signed 8-bit value; `keypad.getKey()` returns the character of the key that
  is pressed or `NO_KEY`, the character with code 0.
* `digitalRead` returns `HIGH` (1) or `LOW` (0); a pin level read from the hardware is a
  `Bool`, `true` for `HIGH`.
* Line 135, `distance = duration * 0.034 / 2`, is floating point arithmetic.  It is not
  modelled: the value it assigns to `distance` (the raw centimetre value) is an input of
  the call, next to the pulse width that `pulseIn` returns.
-/

namespace HomeSecurity

/-! ## Constants of the sketch -/

def trigPin : Nat := 32
def echoPin : Nat := 33
def pirPin : Nat := 34
def toggleBtn : Nat := 38
def buzzerPin : Nat := 39
def redPin : Nat := 35
def greenPin : Nat := 36
def bluePin : Nat := 37

def passwordLength : Nat := 4

/-- The keymap of the 4x4 keypad, row by row. -/
def keys : List Char :=
  ['1', '2', '3', 'A',
   '4', '5', '6', 'B',
   '7', '8', '9', 'C',
   '*', '0', '#', 'D']

/-- The value of `String password = "1234"`. -/
def password : List Char := ['1', '2', '3', '4']

/-- The value `NO_KEY` of the keypad library: the character with code 0. -/
def NO_KEY : Char := Char.ofNat 0

def HIGH : Nat := 1
def LOW : Nat := 0

/-! ## Machine arithmetic -/

/-- Reduction of an integer to the 16-bit signed range (`int`). -/
def wrap16 (x : Int) : Int := (x + 32768) % 65536 - 32768

/-- Reduction of an integer to the 32-bit signed range (`long`). -/
def wrap32 (x : Int) : Int := (x + 2147483648) % 4294967296 - 2147483648

/-- Conversion to `unsigned long`, the parameter type of `delay` and of the duration of
`tone`. -/
def toULong (x : Int) : Int := x % 4294967296

/-- The operator `!` applied to an `int`, converted back to `int`. -/
def logicalNot (x : Int) : Int := if x = 0 then 1 else 0

/-- The Arduino macro
`constrain(amt,low,high) ((amt)<(low)?(low):((amt)>(high)?(high):(amt)))`. -/
def constrain (amt low high : Int) : Int :=
  if amt < low then low else if amt > high then high else amt

/-- The test `key>0` on a signed 8-bit `char`. -/
def keyPositive (key : Char) : Bool :=
  decide (0 < key.toNat ∧ key.toNat < 128)

/-- The value of `digitalRead` for a pin level. -/
def pinValue (level : Bool) : Int := if level then 1 else 0

/-! ## Hardware calls -/

/-- One call into the Arduino core or a library, with its arguments as passed; for a call
that reads the hardware, also the value it returned. -/
inductive Action where
  | digitalWrite (pin : Nat) (val : Nat)
  | digitalRead (pin : Nat) (val : Int)
  | getKey (key : Char)
  | pulseIn (pin : Nat) (val : Int)
  | lcdClear
  | lcdSetCursor (col : Nat) (row : Nat)
  /-- The call `lcd.print` on a string literal. -/
  | lcdPrint (text : String)
  /-- The call `lcd.print` on a `String` object. -/
  | lcdPrintString (text : List Char)
  /-- The call `lcd.print` on a `long`. -/
  | lcdPrintLong (n : Int)
  | delay (ms : Int)
  | delayMicroseconds (us : Nat)
  | tone (pin : Nat) (frequency : Nat) (duration : Int)
  | noTone (pin : Nat)
  deriving DecidableEq, Repr

/-! ## State -/

/-- The global variables of the sketch that are assigned after start-up. -/
structure State where
  duration : Int
  distance : Int
  pirState : Int
  alarmState : Int
  displayState : Int
  buttonState : Int
  interval : Int
  buzzerLength : Int
  enteredPassword : List Char
  deriving DecidableEq, Repr

/-- The globals after static initialisation: the ones without an initialiser are zero. -/
def boot : State :=
  { duration := 0
    distance := 0
    pirState := 0
    alarmState := 0
    displayState := 1
    buttonState := 1
    interval := 0
    buzzerLength := 0
    enteredPassword := [] }

/-- What the hardware returns during one pass of `loop`, one field per place of the sketch
that reads it (each place is executed at most once in a pass). -/
structure PassInput where
  /-- The value of `keypad.getKey()` in the `checkPassword` call of line 186. -/
  keyDisarmed : Char
  /-- The value of `keypad.getKey()` in the `checkPassword` call of line 212. -/
  keyArmed : Char
  /-- The level of `toggleBtn` (pull-up input: `false`, that is `LOW`, while pressed). -/
  button : Bool
  /-- The level of `pirPin` (`true`, that is `HIGH`, while motion is sensed). -/
  pir : Bool
  /-- The value of `pulseIn(echoPin, HIGH)`. -/
  pulse : Int
  /-- The value of `duration * 0.034 / 2` converted to `long` (line 135). -/
  rawCm : Int
  deriving DecidableEq, Repr

/-! ## The functions of the sketch -/

/-- Function `checkPassword` (lines 91 to 123). -/
def checkPassword (s : State) (key : Char) : State × List Action :=
  let r : State × List Action :=
    if keyPositive key then
      ({ s with enteredPassword := s.enteredPassword ++ [key] },
       [Action.getKey key, Action.lcdClear, Action.lcdSetCursor 0 0,
        Action.lcdPrint "Enter password:", Action.lcdSetCursor 0 1,
        Action.lcdPrint "                ", Action.lcdSetCursor 0 1,
        Action.lcdPrintString (s.enteredPassword ++ [key]), Action.delay 750])
    else (s, [Action.getKey key])
  if r.1.enteredPassword.length = passwordLength then
    if r.1.enteredPassword = password then
      ({ r.1 with alarmState := logicalNot r.1.alarmState, enteredPassword := [] },
       r.2 ++ [Action.lcdClear, Action.lcdSetCursor 0 0, Action.lcdPrint "Access granted",
               Action.delay 1000, Action.lcdClear])
    else
      ({ r.1 with enteredPassword := [] },
       r.2 ++ [Action.lcdClear, Action.lcdSetCursor 0 0, Action.lcdPrint "Access denied",
               Action.lcdSetCursor 0 1, Action.lcdPrint "Try Again.", Action.delay 1000,
               Action.lcdClear])
  else r

/-- Function `checkDistance` (lines 127 to 137); `pulse` is what `pulseIn` returns and
`rawCm` the value line 135 assigns to `distance`. -/
def checkDistance (s : State) (pulse rawCm : Int) : State × List Action :=
  ({ s with duration := pulse, distance := constrain rawCm 0 300 },
   [Action.digitalWrite trigPin LOW, Action.delayMicroseconds 2,
    Action.digitalWrite trigPin HIGH, Action.delayMicroseconds 10,
    Action.digitalWrite trigPin LOW, Action.pulseIn echoPin pulse])

/-- Function `checkMotion` (lines 141 to 144). -/
def checkMotion (s : State) (pir : Bool) : State × List Action :=
  ({ s with pirState := pinValue pir },
   [Action.digitalRead pirPin (pinValue pir), Action.delay 10])

/-- Function `motionDetected` (lines 148 to 161).  The product is computed in `long` and
stored in the `int` variable `interval`; `interval/2` truncates. -/
def motionDetected (s : State) : State × List Action :=
  let interval := wrap16 (wrap32 (s.distance * 100))
  let buzzerLength := wrap16 (Int.tdiv interval 2)
  ({ s with interval := interval, buzzerLength := buzzerLength },
   [Action.tone buzzerPin 850 (toULong buzzerLength),
    Action.digitalWrite redPin 255, Action.digitalWrite greenPin 255,
    Action.digitalWrite bluePin 255,
    Action.delay (toULong interval),
    Action.tone buzzerPin 850 (toULong buzzerLength),
    Action.digitalWrite redPin 0, Action.digitalWrite greenPin 0,
    Action.digitalWrite bluePin 255,
    Action.delay (toULong interval)])

/-- Function `noMotion` (lines 165 to 170). -/
def noMotion (s : State) : State × List Action :=
  (s, [Action.noTone buzzerPin, Action.digitalWrite redPin 255,
       Action.digitalWrite greenPin 0, Action.digitalWrite bluePin 0])

/-- Function `checkButton` (lines 174 to 180). -/
def checkButton (s : State) (button : Bool) : State × List Action :=
  let s1 := { s with buttonState := pinValue button }
  (if s1.buttonState = 0 then { s1 with displayState := s1.displayState * -1 } else s1,
   [Action.digitalRead toggleBtn (pinValue button), Action.delay 50])

/-- The display code of the disarmed branch (lines 190 to 205). -/
def renderDisarmed (s : State) : List Action :=
  if s.displayState < 0 then
    [Action.lcdSetCursor 0 0, Action.lcdPrint "Last Detection: ", Action.lcdSetCursor 0 1] ++
      (if s.distance = 0 then [Action.lcdPrint "N/A"]
       else [Action.lcdPrintLong s.distance, Action.lcdPrint " cm"])
  else
    [Action.lcdSetCursor 0 1, Action.lcdPrint "     ", Action.lcdSetCursor 0 0,
     Action.lcdPrint "System: Disarmed"]

/-- The body of `if(alarmState==0){ ... }` (lines 183 to 206). -/
def disarmedBody (s : State) (i : PassInput) : State × List Action :=
  let led := [Action.digitalWrite redPin 0, Action.digitalWrite greenPin 255,
              Action.digitalWrite bluePin 0]
  let p := checkPassword s i.keyDisarmed
  if p.1.enteredPassword = [] then
    let b := checkButton p.1 i.button
    (b.1, led ++ p.2 ++ b.2 ++ [Action.delay 50] ++ renderDisarmed b.1)
  else (p.1, led ++ p.2)

/-- The state and the calls of the armed branch up to the end of
`if (enteredPassword==""){ ... }` (lines 209 to 223), from the state after `checkPassword`. -/
def armedMonitor (s : State) (i : PassInput) : State × List Action :=
  if s.enteredPassword = [] then
    let m := checkMotion s i.pir
    let shown := [Action.lcdSetCursor 0 1, Action.lcdPrint "         ",
                  Action.lcdSetCursor 0 0, Action.lcdPrint "System: Armed   "]
    if m.1.pirState = 1 then
      let d := checkDistance m.1 i.pulse i.rawCm
      let a := motionDetected d.1
      (a.1, shown ++ m.2 ++ [Action.delay 50] ++ d.2 ++ a.2)
    else (m.1, shown ++ m.2 ++ [Action.delay 50])
  else (s, [])

/-- The body of `if (alarmState==1){ ... }` (lines 209 to 225). -/
def armedBody (s : State) (i : PassInput) : State × List Action :=
  let led := [Action.digitalWrite redPin 255, Action.digitalWrite greenPin 0,
              Action.digitalWrite bluePin 0]
  let p := checkPassword s i.keyArmed
  let m := armedMonitor p.1 i
  let n := if m.1.pirState = 0 then noMotion m.1 else (m.1, [])
  (n.1, led ++ p.2 ++ m.2 ++ n.2)

/-- The first statement of `loop`: `if(alarmState==0){ ... }`. -/
def disarmedBlock (s : State) (i : PassInput) : State × List Action :=
  if s.alarmState = 0 then disarmedBody s i else (s, [])

/-- The second statement of `loop`: `if (alarmState==1){ ... }`. -/
def armedBlock (s : State) (i : PassInput) : State × List Action :=
  if s.alarmState = 1 then armedBody s i else (s, [])

/-- Function `loop` (lines 181 to 227): one pass. -/
def loop (s : State) (i : PassInput) : State × List Action :=
  let d := disarmedBlock s i
  let a := armedBlock d.1 i
  (a.1, d.2 ++ a.2)

/-- The passes of `loop` on a list of inputs, one after the other. -/
def run (s : State) : List PassInput → State × List Action
  | [] => (s, [])
  | i :: rest =>
    let r := loop s i
    let q := run r.1 rest
    (q.1, r.2 ++ q.2)

/-- The states the sketch can be in between two passes of `loop`. -/
inductive Reachable : State → Prop where
  | boot : Reachable boot
  | pass (s : State) (i : PassInput) : Reachable s → Reachable (loop s i).1

/-! ## Observations on the list of calls -/

/-- The message of the accepted branch of `checkPassword` is among the calls. -/
def accessGranted (t : List Action) : Bool :=
  t.contains (Action.lcdPrint "Access granted")

/-- The message of the rejected branch of `checkPassword` is among the calls. -/
def accessDenied (t : List Action) : Bool :=
  t.contains (Action.lcdPrint "Access denied")

/-- The number of times the accepted branch of `checkPassword` was taken. -/
def grantedCount (t : List Action) : Nat :=
  t.count (Action.lcdPrint "Access granted")

/-- The calls of `tone` among the calls, in order. -/
def toneCalls (t : List Action) : List Action :=
  t.filter (fun a => match a with
    | Action.tone _ _ _ => true
    | _ => false)

/-- A distance measurement (`pulseIn`) is among the calls. -/
def distanceRead (t : List Action) : Bool :=
  t.any (fun a => match a with
    | Action.pulseIn _ _ => true
    | _ => false)

/-- A poll of the motion sensor is among the calls. -/
def motionPolled (t : List Action) : Bool :=
  t.any (fun a => match a with
    | Action.digitalRead pin _ => decide (pin = pirPin)
    | _ => false)

/-- The total time spent in `delay`, in milliseconds. -/
def heldTime : List Action → Int
  | [] => 0
  | Action.delay ms :: rest => ms + heldTime rest
  | _ :: rest => heldTime rest

/-- The levels of the red, green and blue pins after the calls, from the levels `c`
before them (`digitalWrite` drives a pin high for every value but 0). -/
def ledAfter (c : Bool × Bool × Bool) : List Action → Bool × Bool × Bool
  | [] => c
  | Action.digitalWrite pin val :: rest =>
    ledAfter
      (if pin = redPin then (decide (val ≠ 0), c.2.1, c.2.2)
       else if pin = greenPin then (c.1, decide (val ≠ 0), c.2.2)
       else if pin = bluePin then (c.1, c.2.1, decide (val ≠ 0))
       else c) rest
  | _ :: rest => ledAfter c rest

/-- Successive calls of `checkPassword`, one per value of `keypad.getKey()`. -/
def polls (s : State) : List Char → State × List Action
  | [] => (s, [])
  | k :: ks =>
    let r := checkPassword s k
    let q := polls r.1 ks
    (q.1, r.2 ++ q.2)

/-- The key `key` is a pressed key and brings the buffer `buf` to the password: the
condition under which `checkPassword` takes its accepted branch. -/
def completes (buf : List Char) (key : Char) : Bool :=
  keyPositive key && decide (buf ++ [key] = password)

/-- A key polled during the pass from `s` completes the password: at the `checkPassword`
call of the disarmed branch (executed if the mode is 0 at the start of the pass) or at the
one of the armed branch (executed if the mode is 1 after the first statement of `loop`). -/
def passAccepts (s : State) (i : PassInput) : Prop :=
  (s.alarmState = 0 ∧ completes s.enteredPassword i.keyDisarmed = true) ∨
  ((disarmedBlock s i).1.alarmState = 1 ∧
    completes (disarmedBlock s i).1.enteredPassword i.keyArmed = true)

/-! ## Concrete inputs -/

/-- A pass in which only the key `key` is pressed, seen by the poll of the disarmed
branch. -/
def keyWhileDisarmed (key : Char) : PassInput :=
  ⟨key, NO_KEY, true, false, 0, 0⟩

/-- A pass in which only the key `key` is pressed, seen by the poll of the armed branch. -/
def keyWhileArmed (key : Char) : PassInput :=
  ⟨NO_KEY, key, true, false, 0, 0⟩

/-- A pass without a key in which the toggle button is down. -/
def buttonDown : PassInput :=
  ⟨NO_KEY, NO_KEY, false, false, 0, 0⟩

/-- A pass without a key or button in which motion is sensed and the echo pulse of
`pulse` microseconds converts to `rawCm` centimetres. -/
def motionAt (pulse rawCm : Int) : PassInput :=
  ⟨NO_KEY, NO_KEY, true, true, pulse, rawCm⟩

/-- The password typed while disarmed, one key per pass. -/
def armInputs : List PassInput :=
  [keyWhileDisarmed '1', keyWhileDisarmed '2', keyWhileDisarmed '3', keyWhileDisarmed '4']

/-- The password typed while armed, one key per pass. -/
def disarmInputs : List PassInput :=
  [keyWhileArmed '1', keyWhileArmed '2', keyWhileArmed '3', keyWhileArmed '4']

/-- The password typed while disarmed; in the pass of the fourth key, which arms the
system, motion is sensed and the echo pulse times out (`pulseIn` returns 0, 0 cm). -/
def armWithZeroReading : List PassInput :=
  [keyWhileDisarmed '1', keyWhileDisarmed '2', keyWhileDisarmed '3',
   ⟨'4', NO_KEY, true, true, 0, 0⟩]

/-- The system armed and the first three keys of the password typed while armed. -/
def armThenThreeKeys : List PassInput :=
  armInputs ++ [keyWhileArmed '1', keyWhileArmed '2', keyWhileArmed '3']

/-- The fourth key of the password, seen by the poll of the armed branch, in a pass in
which motion is sensed at 50 cm (an echo pulse of 2942 microseconds). -/
def fourthKeyWithMotion : PassInput :=
  ⟨NO_KEY, '4', true, true, 2942, 50⟩

/-- The password typed while disarmed with motion at 50 cm in the pass of the fourth key,
then the password typed while armed: the system is disarmed again and 50 is stored. -/
def detectThenDisarm : List PassInput :=
  [keyWhileDisarmed '1', keyWhileDisarmed '2', keyWhileDisarmed '3',
   ⟨'4', NO_KEY, true, true, 2942, 50⟩] ++ disarmInputs

/-! ## The invariant of the pass -/

/-- What holds between two passes: the mode is 0 or 1, the buffer holds fewer than four
characters, the display flag is 1 or -1, the stored distance is within 0 and 300 and the
stored motion flag is 0 or 1. -/
def Inv (s : State) : Prop :=
  (s.alarmState = 0 ∨ s.alarmState = 1) ∧ s.enteredPassword.length < 4 ∧
  (s.displayState = 1 ∨ s.displayState = -1) ∧ (0 ≤ s.distance ∧ s.distance ≤ 300) ∧
  (s.pirState = 0 ∨ s.pirState = 1)

/-! ## Basic facts about `checkPassword` -/

theorem logicalNot_ne (x : Int) : logicalNot x ≠ x := by
  unfold logicalNot
  split_ifs with h
  · rw [h]; decide
  · exact fun e => h e.symm

theorem keys_keyPositive : ∀ k ∈ keys, keyPositive k = true := by
  decide

theorem keyPositive_NO_KEY : keyPositive NO_KEY = false := by
  decide

/-- A poll without a key, on a buffer that does not hold four characters, does nothing
but the poll. -/
theorem checkPassword_noKey (s : State) (key : Char) (hk : keyPositive key = false)
    (hl : s.enteredPassword.length ≠ 4) :
    checkPassword s key = (s, [Action.getKey key]) := by
  simp [checkPassword, hk, passwordLength, hl]

/-- A key that does not bring the buffer to four characters is appended. -/
theorem checkPassword_pending (s : State) (key : Char) (hk : keyPositive key = true)
    (hl : s.enteredPassword.length ≠ 3) :
    checkPassword s key =
      ({ s with enteredPassword := s.enteredPassword ++ [key] },
       [Action.getKey key, Action.lcdClear, Action.lcdSetCursor 0 0,
        Action.lcdPrint "Enter password:", Action.lcdSetCursor 0 1,
        Action.lcdPrint "                ", Action.lcdSetCursor 0 1,
        Action.lcdPrintString (s.enteredPassword ++ [key]), Action.delay 750]) := by
  simp [checkPassword, hk, passwordLength, hl]

/-- The key that completes the password: the mode is negated and the buffer cleared. -/
theorem checkPassword_accept (s : State) (key : Char) (hk : keyPositive key = true)
    (hp : s.enteredPassword ++ [key] = password) :
    checkPassword s key =
      ({ s with alarmState := logicalNot s.alarmState, enteredPassword := [] },
       [Action.getKey key, Action.lcdClear, Action.lcdSetCursor 0 0,
        Action.lcdPrint "Enter password:", Action.lcdSetCursor 0 1,
        Action.lcdPrint "                ", Action.lcdSetCursor 0 1,
        Action.lcdPrintString (s.enteredPassword ++ [key]), Action.delay 750,
        Action.lcdClear, Action.lcdSetCursor 0 0, Action.lcdPrint "Access granted",
        Action.delay 1000, Action.lcdClear]) := by
  have hl : (s.enteredPassword ++ [key]).length = 4 := by rw [hp]; rfl
  simp only [checkPassword, hk, passwordLength, if_true, hl, hp]
  rfl

/-- A fourth key that does not complete the password: the buffer is cleared. -/
theorem checkPassword_reject (s : State) (key : Char) (hk : keyPositive key = true)
    (hl : s.enteredPassword.length = 3) (hp : s.enteredPassword ++ [key] ≠ password) :
    checkPassword s key =
      ({ s with enteredPassword := [] },
       [Action.getKey key, Action.lcdClear, Action.lcdSetCursor 0 0,
        Action.lcdPrint "Enter password:", Action.lcdSetCursor 0 1,
        Action.lcdPrint "                ", Action.lcdSetCursor 0 1,
        Action.lcdPrintString (s.enteredPassword ++ [key]), Action.delay 750,
        Action.lcdClear, Action.lcdSetCursor 0 0, Action.lcdPrint "Access denied",
        Action.lcdSetCursor 0 1, Action.lcdPrint "Try Again.", Action.delay 1000,
        Action.lcdClear]) := by
  have hl4 : (s.enteredPassword ++ [key]).length = 4 := by simp [hl]
  simp only [checkPassword, hk, passwordLength, if_true, hl4, hp, if_false]
  rfl

/-! ## Four keys from an empty buffer -/

/-- C1: four pressed keys fed one per `checkPassword` call, from an empty buffer.  The
first three calls leave the mode alone; if the keys spell the password the fourth call
takes the accepted branch ("Access granted") and the mode is the negation of, and
different from, its value before the first key; otherwise the fourth call takes the
rejected branch ("Access denied") and the mode is its value before the first key; in
both cases the buffer is empty after the fourth call. -/
theorem checkPassword_four_keys (s : State) (k1 k2 k3 k4 : Char)
    (hs : s.enteredPassword = [])
    (h1 : keyPositive k1 = true) (h2 : keyPositive k2 = true)
    (h3 : keyPositive k3 = true) (h4 : keyPositive k4 = true) :
    (checkPassword (checkPassword (checkPassword s k1).1 k2).1 k3).1.alarmState
        = s.alarmState ∧
    ([k1, k2, k3, k4] = password →
      accessGranted
        (checkPassword (checkPassword (checkPassword (checkPassword s k1).1 k2).1 k3).1 k4).2
          = true ∧
      accessDenied
        (checkPassword (checkPassword (checkPassword (checkPassword s k1).1 k2).1 k3).1 k4).2
          = false ∧
      (checkPassword (checkPassword (checkPassword (checkPassword s k1).1 k2).1 k3).1
          k4).1.alarmState = logicalNot s.alarmState ∧
      (checkPassword (checkPassword (checkPassword (checkPassword s k1).1 k2).1 k3).1
          k4).1.alarmState ≠ s.alarmState) ∧
    ([k1, k2, k3, k4] ≠ password →
      accessDenied
        (checkPassword (checkPassword (checkPassword (checkPassword s k1).1 k2).1 k3).1 k4).2
          = true ∧
      accessGranted
        (checkPassword (checkPassword (checkPassword (checkPassword s k1).1 k2).1 k3).1 k4).2
          = false ∧
      (checkPassword (checkPassword (checkPassword (checkPassword s k1).1 k2).1 k3).1
          k4).1.alarmState = s.alarmState) ∧
    (checkPassword (checkPassword (checkPassword (checkPassword s k1).1 k2).1 k3).1
        k4).1.enteredPassword = [] := by
  have e1 := checkPassword_pending s k1 h1 (by rw [hs]; decide)
  rw [hs] at e1
  rw [e1]
  have e2 := checkPassword_pending { s with enteredPassword := [] ++ [k1] } k2 h2 (by simp)
  rw [e2]
  have e3 := checkPassword_pending
    { s with enteredPassword := [] ++ [k1] ++ [k2] } k3 h3 (by simp)
  rw [e3]
  refine ⟨rfl, ?_⟩
  by_cases hp : [k1, k2, k3, k4] = password
  · have e4 := checkPassword_accept
      { s with enteredPassword := [] ++ [k1] ++ [k2] ++ [k3] } k4 h4 hp
    rw [e4]
    refine ⟨fun _ => ⟨?_, ?_, rfl, logicalNot_ne _⟩, fun h => absurd hp h, rfl⟩
    · simp [accessGranted]
    · simp [accessDenied]
  · have e4 := checkPassword_reject
      { s with enteredPassword := [] ++ [k1] ++ [k2] ++ [k3] } k4 h4 rfl hp
    rw [e4]
    refine ⟨fun h => absurd h hp, fun _ => ⟨?_, ?_, rfl⟩, rfl⟩
    · simp [accessDenied]
    · simp [accessGranted]

theorem checkPassword_four_keys_witness :
    accessGranted
        (checkPassword (checkPassword (checkPassword (checkPassword boot '1').1 '2').1 '3').1
          '4').2 = true ∧
    accessDenied
        (checkPassword (checkPassword (checkPassword (checkPassword boot '1').1 '2').1 '3').1
          '5').2 = true :=
  ⟨((checkPassword_four_keys boot '1' '2' '3' '4' rfl (by decide) (by decide) (by decide)
      (by decide)).2.1 (by decide)).1,
   ((checkPassword_four_keys boot '1' '2' '3' '5' rfl (by decide) (by decide) (by decide)
      (by decide)).2.2.1 (by decide)).1⟩

/-! ## Preservation of the invariant -/

theorem constrain_range (r : Int) : 0 ≤ constrain r 0 300 ∧ constrain r 0 300 ≤ 300 := by
  unfold constrain
  split_ifs <;> omega

theorem pinValue_cases (b : Bool) : pinValue b = 0 ∨ pinValue b = 1 := by
  cases b <;> simp [pinValue]

theorem logicalNot_cases (x : Int) : logicalNot x = 0 ∨ logicalNot x = 1 := by
  unfold logicalNot
  split_ifs <;> simp

theorem inv_boot : Inv boot := by
  simp [Inv, boot]

theorem inv_checkPassword (s : State) (key : Char) (h : Inv s) :
    Inv (checkPassword s key).1 := by
  obtain ⟨ha, hl, hd, hr, hp⟩ := h
  by_cases hk : keyPositive key = true
  · by_cases h3 : s.enteredPassword.length = 3
    · by_cases he : s.enteredPassword ++ [key] = password
      · rw [checkPassword_accept s key hk he]
        exact ⟨logicalNot_cases _, by simp, hd, hr, hp⟩
      · rw [checkPassword_reject s key hk h3 he]
        exact ⟨ha, by simp, hd, hr, hp⟩
    · rw [checkPassword_pending s key hk h3]
      refine ⟨ha, ?_, hd, hr, hp⟩
      simp only [List.length_append, List.length_singleton]
      omega
  · rw [checkPassword_noKey s key (by simpa using hk) (by omega)]
    exact ⟨ha, hl, hd, hr, hp⟩

theorem inv_checkButton (s : State) (b : Bool) (h : Inv s) : Inv (checkButton s b).1 := by
  obtain ⟨ha, hl, hd, hr, hp⟩ := h
  unfold checkButton
  simp only
  split_ifs
  · refine ⟨ha, hl, ?_, hr, hp⟩
    rcases hd with hd | hd <;> simp [hd]
  · exact ⟨ha, hl, hd, hr, hp⟩

theorem inv_disarmedBlock (s : State) (i : PassInput) (h : Inv s) :
    Inv (disarmedBlock s i).1 := by
  unfold disarmedBlock disarmedBody
  simp only
  split_ifs
  · exact inv_checkButton _ _ (inv_checkPassword _ _ h)
  · exact inv_checkPassword _ _ h
  · exact h

theorem inv_armedMonitor (s : State) (i : PassInput) (h : Inv s) :
    Inv (armedMonitor s i).1 := by
  obtain ⟨ha, hl, hd, hr, hp⟩ := h
  unfold armedMonitor
  simp only
  split_ifs with h1 h2
  · exact ⟨ha, hl, hd, constrain_range _, Or.inr h2⟩
  · exact ⟨ha, hl, hd, hr, pinValue_cases _⟩
  · exact ⟨ha, hl, hd, hr, hp⟩

theorem inv_armedBlock (s : State) (i : PassInput) (h : Inv s) :
    Inv (armedBlock s i).1 := by
  unfold armedBlock armedBody
  simp only
  split_ifs
  · exact inv_armedMonitor _ _ (inv_checkPassword _ _ h)
  · exact inv_armedMonitor _ _ (inv_checkPassword _ _ h)
  · exact h

theorem inv_loop (s : State) (i : PassInput) (h : Inv s) : Inv (loop s i).1 :=
  inv_armedBlock _ _ (inv_disarmedBlock _ _ h)

theorem inv_of_reachable (s : State) (h : Reachable s) : Inv s := by
  induction h with
  | boot => exact inv_boot
  | pass s i _ ih => exact inv_loop s i ih

/-! ## The alert cycle -/

/-- C3: for a stored distance `d` within 0 and 300, `motionDetected` sets `interval` to
`d*100` and `buzzerLength` to `d*100/2` with the 16-bit reduction of `int` in place;
the calls are tone(850, d*100/2), white, delay(d*100), tone(850, d*100/2), blue,
delay(d*100): two tones, the indicator white after the first half and blue after the
second, `2*d*100` ms spent in `delay`; for `d = 0` the delays and the tone durations
are 0. -/
theorem motionDetected_cadence (s : State) (h0 : 0 ≤ s.distance) (h1 : s.distance ≤ 300) :
    (motionDetected s).1.interval = s.distance * 100 ∧
    (motionDetected s).1.buzzerLength = s.distance * 100 / 2 ∧
    (motionDetected s).2 =
      [Action.tone buzzerPin 850 (s.distance * 100 / 2),
       Action.digitalWrite redPin 255, Action.digitalWrite greenPin 255,
       Action.digitalWrite bluePin 255,
       Action.delay (s.distance * 100),
       Action.tone buzzerPin 850 (s.distance * 100 / 2),
       Action.digitalWrite redPin 0, Action.digitalWrite greenPin 0,
       Action.digitalWrite bluePin 255,
       Action.delay (s.distance * 100)] ∧
    (toneCalls (motionDetected s).2).length = 2 ∧
    (∀ c, ledAfter c ((motionDetected s).2.take 5) = (true, true, true)) ∧
    (∀ c, ledAfter c (motionDetected s).2 = (false, false, true)) ∧
    heldTime (motionDetected s).2 = 2 * (s.distance * 100) ∧
    (s.distance = 0 →
      (motionDetected s).1.interval = 0 ∧ (motionDetected s).1.buzzerLength = 0 ∧
      heldTime (motionDetected s).2 = 0 ∧
      toneCalls (motionDetected s).2 =
        [Action.tone buzzerPin 850 0, Action.tone buzzerPin 850 0]) := by
  have hi : wrap16 (wrap32 (s.distance * 100)) = s.distance * 100 := by
    unfold wrap16 wrap32; omega
  have hd : Int.tdiv (s.distance * 100) 2 = s.distance * 100 / 2 := by
    rw [Int.tdiv_eq_ediv] <;> omega
  have hb : wrap16 (s.distance * 100 / 2) = s.distance * 100 / 2 := by
    unfold wrap16; omega
  have hu1 : toULong (s.distance * 100) = s.distance * 100 := by
    unfold toULong; omega
  have hu2 : toULong (s.distance * 100 / 2) = s.distance * 100 / 2 := by
    unfold toULong; omega
  have ht : (motionDetected s).2 =
      [Action.tone buzzerPin 850 (s.distance * 100 / 2),
       Action.digitalWrite redPin 255, Action.digitalWrite greenPin 255,
       Action.digitalWrite bluePin 255,
       Action.delay (s.distance * 100),
       Action.tone buzzerPin 850 (s.distance * 100 / 2),
       Action.digitalWrite redPin 0, Action.digitalWrite greenPin 0,
       Action.digitalWrite bluePin 255,
       Action.delay (s.distance * 100)] := by
    simp only [motionDetected, hi, hd, hb, hu1, hu2]
  have hI : (motionDetected s).1.interval = s.distance * 100 := by
    simp only [motionDetected, hi]
  have hB : (motionDetected s).1.buzzerLength = s.distance * 100 / 2 := by
    simp only [motionDetected, hi, hd, hb]
  have hh : heldTime (motionDetected s).2 = 2 * (s.distance * 100) := by
    rw [ht]; simp only [heldTime]; omega
  refine ⟨hI, hB, ht, ?_, ?_, ?_, hh, ?_⟩
  · rw [ht]; rfl
  · intro c; rw [ht]; rfl
  · intro c; rw [ht]; rfl
  · intro hz
    rw [hI, hB, hh, ht, hz]
    exact ⟨rfl, rfl, rfl, rfl⟩

theorem motionDetected_cadence_witness :
    (motionDetected { boot with distance := 50 }).1.interval = 50 * 100 ∧
    (motionDetected { boot with distance := 50 }).1.buzzerLength = 50 * 100 / 2 :=
  ⟨(motionDetected_cadence { boot with distance := 50 } (by decide) (by decide)).1,
   (motionDetected_cadence { boot with distance := 50 } (by decide) (by decide)).2.1⟩

/-! ## The distance reading -/

/-- C4: `checkDistance` stores 0 for a raw centimetre value below 0, 300 for one above 300
and the raw value otherwise; the stored distance is 0 at boot and within 0 and 300 in
every state reachable from boot. -/
theorem checkDistance_clamps :
    (∀ (s : State) (pulse r : Int),
      (checkDistance s pulse r).1.distance =
        if r < 0 then 0 else if r > 300 then 300 else r) ∧
    boot.distance = 0 ∧
    (∀ s : State, Reachable s → 0 ≤ s.distance ∧ s.distance ≤ 300) :=
  ⟨fun _ _ _ => rfl, rfl, fun s h => (inv_of_reachable s h).2.2.2.1⟩

theorem checkDistance_clamps_witness :
    (checkDistance boot 29412 500).1.distance = 300 ∧
    (0 ≤ (loop boot ⟨'1', NO_KEY, true, false, 0, 0⟩).1.distance ∧
      (loop boot ⟨'1', NO_KEY, true, false, 0, 0⟩).1.distance ≤ 300) :=
  ⟨checkDistance_clamps.1 boot 29412 500,
   checkDistance_clamps.2.2 _ (Reachable.pass boot ⟨'1', NO_KEY, true, false, 0, 0⟩
     Reachable.boot)⟩

/-! ## Which calls take the accepted branch -/

theorem grantedCount_append (a b : List Action) :
    grantedCount (a ++ b) = grantedCount a + grantedCount b := by
  simp [grantedCount]

theorem accessGranted_iff (t : List Action) :
    accessGranted t = true ↔ 0 < grantedCount t := by
  simp [accessGranted, grantedCount, List.count_pos_iff]

theorem accessGranted_append (a b : List Action) :
    accessGranted (a ++ b) = (accessGranted a || accessGranted b) := by
  simp [accessGranted]

theorem accessDenied_append (a b : List Action) :
    accessDenied (a ++ b) = (accessDenied a || accessDenied b) := by
  simp [accessDenied]

theorem completes_length (buf : List Char) (key : Char) (h : completes buf key = true) :
    buf.length = 3 := by
  simp only [completes, Bool.and_eq_true, decide_eq_true_eq] at h
  have := congrArg List.length h.2
  simpa [password] using this

/-- The effect of `checkPassword` on a buffer of fewer than four characters, in terms of
`completes`. -/
theorem checkPassword_effect (s : State) (key : Char) (hl : s.enteredPassword.length < 4) :
    (checkPassword s key).1.alarmState
        = (if completes s.enteredPassword key = true then logicalNot s.alarmState
           else s.alarmState) ∧
    (completes s.enteredPassword key = true → (checkPassword s key).1.enteredPassword = []) ∧
    grantedCount (checkPassword s key).2
        = (if completes s.enteredPassword key = true then 1 else 0) ∧
    (checkPassword s key).1.enteredPassword.length ≤ s.enteredPassword.length + 1 := by
  by_cases hk : keyPositive key = true
  · by_cases he : s.enteredPassword ++ [key] = password
    · have hc : completes s.enteredPassword key = true := by simp [completes, hk, he]
      rw [checkPassword_accept s key hk he]
      simp [hc, grantedCount]
    · have hc : completes s.enteredPassword key = false := by simp [completes, he]
      by_cases h3 : s.enteredPassword.length = 3
      · rw [checkPassword_reject s key hk h3 he]
        simp [hc, grantedCount]
      · rw [checkPassword_pending s key hk h3]
        simp [hc, grantedCount]
  · have hk2 : keyPositive key = false := by simpa using hk
    have hc : completes s.enteredPassword key = false := by simp [completes, hk2]
    rw [checkPassword_noKey s key hk2 (by omega)]
    simp [hc, grantedCount]

/-! ## What each part of the pass leaves alone -/

theorem checkPassword_frame (s : State) (key : Char) :
    (checkPassword s key).1.distance = s.distance ∧
    (checkPassword s key).1.displayState = s.displayState ∧
    (checkPassword s key).1.pirState = s.pirState ∧
    (checkPassword s key).1.buttonState = s.buttonState := by
  unfold checkPassword
  by_cases hk : keyPositive key = true <;> simp only [hk] <;> split_ifs <;> simp

theorem checkButton_frame (s : State) (b : Bool) :
    (checkButton s b).1.alarmState = s.alarmState ∧
    (checkButton s b).1.enteredPassword = s.enteredPassword ∧
    (checkButton s b).1.distance = s.distance ∧
    (checkButton s b).1.pirState = s.pirState ∧
    grantedCount (checkButton s b).2 = 0 := by
  unfold checkButton
  simp only
  split_ifs <;> simp [grantedCount]

theorem grantedCount_renderDisarmed (s : State) : grantedCount (renderDisarmed s) = 0 := by
  unfold renderDisarmed
  split_ifs <;> simp [grantedCount]

theorem armedMonitor_frame (s : State) (i : PassInput) :
    (armedMonitor s i).1.alarmState = s.alarmState ∧
    (armedMonitor s i).1.enteredPassword = s.enteredPassword ∧
    (armedMonitor s i).1.displayState = s.displayState ∧
    grantedCount (armedMonitor s i).2 = 0 := by
  unfold armedMonitor
  simp only
  split_ifs <;>
    simp [grantedCount, checkMotion, checkDistance, motionDetected]

/-- The first statement of `loop` in terms of its `checkPassword` call. -/
theorem disarmedBlock_effect (s : State) (i : PassInput) :
    (disarmedBlock s i).1.alarmState
        = (if s.alarmState = 0 then (checkPassword s i.keyDisarmed).1.alarmState
           else s.alarmState) ∧
    (disarmedBlock s i).1.enteredPassword
        = (if s.alarmState = 0 then (checkPassword s i.keyDisarmed).1.enteredPassword
           else s.enteredPassword) ∧
    (disarmedBlock s i).1.distance = s.distance ∧
    grantedCount (disarmedBlock s i).2
        = (if s.alarmState = 0 then grantedCount (checkPassword s i.keyDisarmed).2
           else 0) := by
  unfold disarmedBlock disarmedBody
  simp only
  split_ifs with h0 he
  · obtain ⟨b1, b2, b3, _, b5⟩ := checkButton_frame (checkPassword s i.keyDisarmed).1 i.button
    refine ⟨b1, b2, b3.trans (checkPassword_frame s i.keyDisarmed).1, ?_⟩
    simp only [grantedCount_append, b5, grantedCount_renderDisarmed]
    simp [grantedCount]
  · refine ⟨rfl, rfl, (checkPassword_frame s i.keyDisarmed).1, ?_⟩
    simp only [grantedCount_append]
    simp [grantedCount]
  · exact ⟨rfl, rfl, rfl, rfl⟩

/-- The second statement of `loop` in terms of its `checkPassword` call. -/
theorem armedBlock_effect (s : State) (i : PassInput) :
    (armedBlock s i).1.alarmState
        = (if s.alarmState = 1 then (checkPassword s i.keyArmed).1.alarmState
           else s.alarmState) ∧
    (armedBlock s i).1.enteredPassword
        = (if s.alarmState = 1 then (checkPassword s i.keyArmed).1.enteredPassword
           else s.enteredPassword) ∧
    grantedCount (armedBlock s i).2
        = (if s.alarmState = 1 then grantedCount (checkPassword s i.keyArmed).2
           else 0) := by
  unfold armedBlock armedBody
  simp only
  obtain ⟨m1, m2, _, m4⟩ := armedMonitor_frame (checkPassword s i.keyArmed).1 i
  split_ifs with h1 h0
  · refine ⟨m1, m2, ?_⟩
    simp only [grantedCount_append, m4, noMotion]
    simp [grantedCount]
  · refine ⟨m1, m2, ?_⟩
    simp only [grantedCount_append, m4]
    simp [grantedCount]
  · exact ⟨rfl, rfl, rfl⟩

/-! ## The mode changes on an accepted attempt only -/

theorem completes_nil (key : Char) : completes [] key = false := by
  cases h : completes [] key
  · rfl
  · exact absurd (completes_length [] key h) (by decide)

/-- A call that does not take the accepted branch keeps the mode, in every state. -/
theorem checkPassword_keeps_mode (t : State) (key : Char)
    (h : accessGranted (checkPassword t key).2 = false) :
    (checkPassword t key).1.alarmState = t.alarmState := by
  unfold checkPassword at h ⊢
  by_cases hk : keyPositive key = true <;> simp only [hk] at h ⊢ <;> split_ifs at h ⊢ <;>
    first
      | rfl
      | (exfalso; revert h; simp [accessGranted])

/-- Polls that cannot bring the buffer to four characters keep the mode and take neither
the accepted nor the rejected branch. -/
theorem polls_short (ks : List Char) :
    ∀ t : State, t.enteredPassword.length + ks.length ≤ 3 →
      (polls t ks).1.alarmState = t.alarmState ∧
      accessGranted (polls t ks).2 = false ∧ accessDenied (polls t ks).2 = false := by
  induction ks with
  | nil => intro t _; exact ⟨rfl, rfl, rfl⟩
  | cons k ks ih =>
    intro t ht
    simp only [List.length_cons] at ht
    simp only [polls, accessGranted_append, accessDenied_append]
    by_cases hk : keyPositive k = true
    · rw [checkPassword_pending t k hk (by omega)]
      obtain ⟨i1, i2, i3⟩ := ih { t with enteredPassword := t.enteredPassword ++ [k] }
        (by simp only [List.length_append, List.length_singleton]; omega)
      refine ⟨i1, ?_, ?_⟩
      · rw [i2]; simp [accessGranted]
      · rw [i3]; simp [accessDenied]
    · rw [checkPassword_noKey t k (by simpa using hk) (by omega)]
      obtain ⟨i1, i2, i3⟩ := ih t (by omega)
      refine ⟨i1, ?_, ?_⟩
      · rw [i2]; simp [accessGranted]
      · rw [i3]; simp [accessDenied]

/-- The mode after a pass and the number of accepted branches taken in it, from a state
that satisfies the invariant. -/
theorem loop_mode (s : State) (h : Inv s) (i : PassInput) :
    ((loop s i).1.alarmState ≠ s.alarmState ↔ passAccepts s i) ∧
    grantedCount (loop s i).2 = (if (loop s i).1.alarmState ≠ s.alarmState then 1 else 0) := by
  obtain ⟨ha, hl, -, -, -⟩ := h
  obtain ⟨d1, d2, -, d4⟩ := disarmedBlock_effect s i
  obtain ⟨a1, a2, a4⟩ := armedBlock_effect (disarmedBlock s i).1 i
  have hloop : loop s i = ((armedBlock (disarmedBlock s i).1 i).1,
      (disarmedBlock s i).2 ++ (armedBlock (disarmedBlock s i).1 i).2) := rfl
  rw [hloop]
  simp only [grantedCount_append, passAccepts]
  rcases ha with h0 | h1
  · obtain ⟨c1, c2, c3, -⟩ := checkPassword_effect s i.keyDisarmed hl
    simp only [h0, if_true] at d1 d2 d4
    by_cases hc : completes s.enteredPassword i.keyDisarmed = true
    · simp only [hc, if_true] at c1 c3
      have e2 := c2 hc
      rw [c1] at d1
      rw [e2] at d2
      rw [c3] at d4
      have hm : (disarmedBlock s i).1.alarmState = 1 := by rw [d1, h0]; rfl
      obtain ⟨q1, -, q3, -⟩ := checkPassword_effect (disarmedBlock s i).1 i.keyArmed
        (by rw [d2]; decide)
      simp only [d2, completes_nil, Bool.false_eq_true, if_false] at q1 q3
      simp only [hm, if_true] at a1 a4
      rw [q1] at a1
      rw [q3] at a4
      rw [a1, a4, d4, hm, h0]
      simp [hc]
    · simp only [hc, if_false] at c1 c3
      rw [c1] at d1
      rw [c3] at d4
      have hm : (disarmedBlock s i).1.alarmState = 0 := by rw [d1]; exact h0
      simp only [hm] at a1 a4
      simp only [show ¬ ((0 : Int) = 1) by decide, if_false] at a1 a4
      rw [a1, a4, d4, hm, h0]
      simp [hc]
  · have hne : ¬ (s.alarmState = 0) := by rw [h1]; decide
    simp only [hne, if_false] at d1 d2 d4
    obtain ⟨q1, -, q3, -⟩ := checkPassword_effect (disarmedBlock s i).1 i.keyArmed
      (by rw [d2]; exact hl)
    have hm : (disarmedBlock s i).1.alarmState = 1 := by rw [d1]; exact h1
    simp only [hm, if_true] at a1 a4
    rw [q1] at a1
    rw [q3] at a4
    rw [a1, a4, d4, hm, h1]
    by_cases hc : completes (disarmedBlock s i).1.enteredPassword i.keyArmed = true
    · simp [hc, logicalNot]
    · simp [hc]

/-- C2: from every state reachable from boot and for every input of a pass, the mode after
the pass differs from the mode before it exactly if a key polled in the pass completes the
password, which is exactly if the accepted branch ("Access granted") is taken in the pass;
that branch is taken at most once in a pass; a `checkPassword` call that does not take it
(rejected, pending, no key) keeps the mode; three or fewer polls from an empty buffer keep
the mode and take neither the accepted nor the rejected branch. -/
theorem mode_changes_only_on_accept (s : State) (hr : Reachable s) (i : PassInput) :
    ((loop s i).1.alarmState ≠ s.alarmState ↔ passAccepts s i) ∧
    (passAccepts s i ↔ accessGranted (loop s i).2 = true) ∧
    grantedCount (loop s i).2 ≤ 1 ∧
    (∀ (t : State) (key : Char), accessGranted (checkPassword t key).2 = false →
      (checkPassword t key).1.alarmState = t.alarmState) ∧
    (∀ (t : State) (ks : List Char), t.enteredPassword = [] → ks.length ≤ 3 →
      (polls t ks).1.alarmState = t.alarmState ∧
      accessGranted (polls t ks).2 = false ∧ accessDenied (polls t ks).2 = false) := by
  obtain ⟨m1, m2⟩ := loop_mode s (inv_of_reachable s hr) i
  refine ⟨m1, ?_, ?_, checkPassword_keeps_mode, ?_⟩
  · rw [← m1, accessGranted_iff, m2]
    split_ifs with hne <;> simp [hne]
  · rw [m2]; split_ifs <;> simp
  · intro t ks ht hk
    exact polls_short ks t (by rw [ht]; simpa using hk)

theorem mode_changes_only_on_accept_witness :
    ((loop boot ⟨'1', NO_KEY, true, false, 0, 0⟩).1.alarmState ≠ boot.alarmState ↔
      passAccepts boot ⟨'1', NO_KEY, true, false, 0, 0⟩) ∧
    grantedCount (loop boot ⟨'1', NO_KEY, true, false, 0, 0⟩).2 ≤ 1 :=
  ⟨(mode_changes_only_on_accept boot Reachable.boot ⟨'1', NO_KEY, true, false, 0, 0⟩).1,
   (mode_changes_only_on_accept boot Reachable.boot ⟨'1', NO_KEY, true, false, 0, 0⟩).2.2.1⟩

/-! ## Polls without a key -/

theorem polls_noKey (s : State) (hl : s.enteredPassword.length ≠ 4) (ks : List Char)
    (hk : ∀ k ∈ ks, keyPositive k = false) :
    (polls s ks).1 = s ∧ accessGranted (polls s ks).2 = false ∧
      accessDenied (polls s ks).2 = false := by
  induction ks with
  | nil => exact ⟨rfl, rfl, rfl⟩
  | cons k ks ih =>
    have hk1 : keyPositive k = false := hk k (List.mem_cons_self k ks)
    obtain ⟨i1, i2, i3⟩ := ih (fun x hx => hk x (List.mem_cons_of_mem k hx))
    simp only [polls, accessGranted_append, accessDenied_append]
    rw [checkPassword_noKey s k hk1 hl]
    refine ⟨i1, ?_, ?_⟩
    · rw [i2]; simp [accessGranted]
    · rw [i3]; simp [accessDenied]

/-- C6: in every state reachable from boot, at either `checkPassword` call of a pass, a
call in which the keypad reports no key returns the state as it was (so the buffer, the
mode and the display flag are as they were) and makes no call but the keypad poll; any
number of such calls in a row returns the state as it was and takes neither the accepted
nor the rejected branch. -/
theorem noInput_idempotent (s : State) (hr : Reachable s) :
    (∀ key : Char, keyPositive key = false →
      checkPassword s key = (s, [Action.getKey key])) ∧
    (∀ (i : PassInput) (key : Char), keyPositive key = false →
      checkPassword (disarmedBlock s i).1 key
        = ((disarmedBlock s i).1, [Action.getKey key])) ∧
    (∀ ks : List Char, (∀ k ∈ ks, keyPositive k = false) →
      (polls s ks).1 = s ∧
      (polls s ks).1.enteredPassword = s.enteredPassword ∧
      (polls s ks).1.alarmState = s.alarmState ∧
      (polls s ks).1.displayState = s.displayState ∧
      accessGranted (polls s ks).2 = false ∧ accessDenied (polls s ks).2 = false) := by
  have hl := (inv_of_reachable s hr).2.1
  refine ⟨fun key hk => checkPassword_noKey s key hk (by omega), fun i key hk => ?_,
    fun ks hk => ?_⟩
  · have hm := (inv_disarmedBlock s i (inv_of_reachable s hr)).2.1
    exact checkPassword_noKey _ key hk (by omega)
  · obtain ⟨p1, p2, p3⟩ := polls_noKey s (by omega) ks hk
    exact ⟨p1, by rw [p1], by rw [p1], by rw [p1], p2, p3⟩

theorem noInput_idempotent_witness :
    checkPassword (loop boot ⟨'1', NO_KEY, true, false, 0, 0⟩).1 NO_KEY
      = ((loop boot ⟨'1', NO_KEY, true, false, 0, 0⟩).1, [Action.getKey NO_KEY]) :=
  (noInput_idempotent _ (Reachable.pass boot ⟨'1', NO_KEY, true, false, 0, 0⟩
    Reachable.boot)).1 NO_KEY keyPositive_NO_KEY

/-! ## A disarmed pass keeps the stored distance -/

theorem accessGranted_append_false (a b : List Action)
    (h : accessGranted (a ++ b) = false) :
    accessGranted a = false ∧ accessGranted b = false := by
  rw [accessGranted_append] at h
  simpa using h

/-- A pass from mode 0 in which the accepted branch is not taken ends in mode 0 with the
stored distance as it was. -/
theorem loop_disarmed_keeps (s : State) (i : PassInput) (h0 : s.alarmState = 0)
    (hn : accessGranted (loop s i).2 = false) :
    (loop s i).1.distance = s.distance ∧ (loop s i).1.alarmState = 0 := by
  have hloop : loop s i = ((armedBlock (disarmedBlock s i).1 i).1,
      (disarmedBlock s i).2 ++ (armedBlock (disarmedBlock s i).1 i).2) := rfl
  rw [hloop] at hn ⊢
  have hd := (accessGranted_append_false _ _ hn).1
  obtain ⟨d1, -, d3, d4⟩ := disarmedBlock_effect s i
  simp only [h0, if_true] at d1 d4
  have hg : accessGranted (checkPassword s i.keyDisarmed).2 = false := by
    cases hc : accessGranted (checkPassword s i.keyDisarmed).2
    · rfl
    · rw [accessGranted_iff] at hc
      have : accessGranted (disarmedBlock s i).2 = true := by
        rw [accessGranted_iff, d4]; exact hc
      rw [hd] at this
      exact absurd this (by decide)
  have hm : (disarmedBlock s i).1.alarmState = 0 := by
    rw [d1, checkPassword_keeps_mode s i.keyDisarmed hg, h0]
  have ha : armedBlock (disarmedBlock s i).1 i = ((disarmedBlock s i).1, []) := by
    unfold armedBlock
    rw [hm]
    rfl
  rw [ha]
  exact ⟨d3, hm⟩

/-- C8: a pass that starts in mode 0 and in which the accepted branch is not taken leaves
the stored distance as it was and ends in mode 0, for every input; so does every sequence
of passes from mode 0 in which the accepted branch is never taken. -/
theorem disarmed_keeps_distance (s : State) (h0 : s.alarmState = 0) :
    (∀ i : PassInput, accessGranted (loop s i).2 = false →
      (loop s i).1.distance = s.distance ∧ (loop s i).1.alarmState = 0) ∧
    (∀ inputs : List PassInput, accessGranted (run s inputs).2 = false →
      (run s inputs).1.distance = s.distance ∧ (run s inputs).1.alarmState = 0) := by
  refine ⟨fun i hn => loop_disarmed_keeps s i h0 hn, fun inputs => ?_⟩
  induction inputs generalizing s with
  | nil => intro _; exact ⟨rfl, h0⟩
  | cons i rest ih =>
    intro hn
    simp only [run] at hn ⊢
    obtain ⟨n1, n2⟩ := accessGranted_append_false _ _ hn
    obtain ⟨l1, l2⟩ := loop_disarmed_keeps s i h0 n1
    obtain ⟨r1, r2⟩ := ih (loop s i).1 l2 n2
    exact ⟨r1.trans l1, r2⟩

theorem disarmed_keeps_distance_witness :
    (run (run boot detectThenDisarm).1
        [keyWhileDisarmed '7', buttonDown, motionAt 588 10]).1.distance = 50 :=
  ((disarmed_keeps_distance (run boot detectThenDisarm).1 (by decide)).2
    [keyWhileDisarmed '7', buttonDown, motionAt 588 10] (by decide)).1.trans (by decide)

/-! ## The armed pass -/

theorem toneCalls_append (a b : List Action) :
    toneCalls (a ++ b) = toneCalls a ++ toneCalls b := by
  simp [toneCalls]

theorem ledAfter_append (a b : List Action) :
    ∀ c, ledAfter c (a ++ b) = ledAfter (ledAfter c a) b := by
  induction a with
  | nil => intro c; rfl
  | cons x xs ih =>
    intro c
    cases x <;> simp only [List.cons_append, ledAfter] <;> exact ih _

theorem distanceRead_append (a b : List Action) :
    distanceRead (a ++ b) = (distanceRead a || distanceRead b) := by
  simp [distanceRead]

/-- The calls of `checkPassword` hold no tone, no pin write and no distance measurement. -/
theorem checkPassword_calls (s : State) (key : Char) :
    toneCalls (checkPassword s key).2 = [] ∧
    (∀ c, ledAfter c (checkPassword s key).2 = c) ∧
    distanceRead (checkPassword s key).2 = false := by
  unfold checkPassword
  by_cases hk : keyPositive key = true <;> simp only [hk] <;> split_ifs <;>
    exact ⟨rfl, fun _ => rfl, rfl⟩

/-- The function `motionDetected` on a stored distance within 0 and 300. -/
theorem motionDetected_eq (s : State) (h0 : 0 ≤ s.distance) (h1 : s.distance ≤ 300) :
    motionDetected s =
      ({ s with interval := s.distance * 100, buzzerLength := s.distance * 100 / 2 },
       [Action.tone buzzerPin 850 (s.distance * 100 / 2),
        Action.digitalWrite redPin 255, Action.digitalWrite greenPin 255,
        Action.digitalWrite bluePin 255,
        Action.delay (s.distance * 100),
        Action.tone buzzerPin 850 (s.distance * 100 / 2),
        Action.digitalWrite redPin 0, Action.digitalWrite greenPin 0,
        Action.digitalWrite bluePin 255,
        Action.delay (s.distance * 100)]) := by
  have hi : wrap16 (wrap32 (s.distance * 100)) = s.distance * 100 := by
    unfold wrap16 wrap32; omega
  have hd : Int.tdiv (s.distance * 100) 2 = s.distance * 100 / 2 := by
    rw [Int.tdiv_eq_ediv] <;> omega
  have hb : wrap16 (s.distance * 100 / 2) = s.distance * 100 / 2 := by
    unfold wrap16; omega
  have hu1 : toULong (s.distance * 100) = s.distance * 100 := by
    unfold toULong; omega
  have hu2 : toULong (s.distance * 100 / 2) = s.distance * 100 / 2 := by
    unfold toULong; omega
  simp only [motionDetected, hi, hd, hb, hu1, hu2]

/-- A pass from mode 1 is the body of the armed branch. -/
theorem loop_armed (s : State) (i : PassInput) (ha : s.alarmState = 1) :
    loop s i = armedBody s i := by
  have hd : disarmedBlock s i = (s, []) := by
    unfold disarmedBlock
    rw [ha]
    rfl
  have hb : armedBlock s i = armedBody s i := by
    unfold armedBlock
    rw [ha]
    rfl
  simp only [loop, hd, hb, List.nil_append]

/-- C5: a pass that starts in mode 1 with the buffer empty after the keypad poll.  If the
motion pin reads high: the stored distance is the raw value clamped to 0..300, `interval`
and `buzzerLength` are computed from it, and the calls after the keypad poll are the
status line, the motion poll, one distance measurement and one alert cycle (two tones)
with the stored value; a raw value of 50 gives distance 50, interval 5000 and tone
duration 2500.  If the motion pin reads low: the stored distance is as it was, no distance
is measured, no tone is started, the last calls are `noTone` and the red indicator,
the colour the branch sets at its start. -/
theorem armed_pass_monitor (s : State) (i : PassInput) (ha : s.alarmState = 1)
    (he : (checkPassword s i.keyArmed).1.enteredPassword = []) :
    (i.pir = true →
      (loop s i).1.distance = constrain i.rawCm 0 300 ∧
      (0 ≤ (loop s i).1.distance ∧ (loop s i).1.distance ≤ 300) ∧
      (loop s i).1.interval = (loop s i).1.distance * 100 ∧
      (loop s i).1.buzzerLength = (loop s i).1.distance * 100 / 2 ∧
      (loop s i).2 =
        [Action.digitalWrite redPin 255, Action.digitalWrite greenPin 0,
         Action.digitalWrite bluePin 0] ++ (checkPassword s i.keyArmed).2 ++
        [Action.lcdSetCursor 0 1, Action.lcdPrint "         ", Action.lcdSetCursor 0 0,
         Action.lcdPrint "System: Armed   ",
         Action.digitalRead pirPin 1, Action.delay 10, Action.delay 50,
         Action.digitalWrite trigPin LOW, Action.delayMicroseconds 2,
         Action.digitalWrite trigPin HIGH, Action.delayMicroseconds 10,
         Action.digitalWrite trigPin LOW, Action.pulseIn echoPin i.pulse,
         Action.tone buzzerPin 850 ((loop s i).1.distance * 100 / 2),
         Action.digitalWrite redPin 255, Action.digitalWrite greenPin 255,
         Action.digitalWrite bluePin 255,
         Action.delay ((loop s i).1.distance * 100),
         Action.tone buzzerPin 850 ((loop s i).1.distance * 100 / 2),
         Action.digitalWrite redPin 0, Action.digitalWrite greenPin 0,
         Action.digitalWrite bluePin 255,
         Action.delay ((loop s i).1.distance * 100)] ∧
      toneCalls (loop s i).2 =
        [Action.tone buzzerPin 850 ((loop s i).1.distance * 100 / 2),
         Action.tone buzzerPin 850 ((loop s i).1.distance * 100 / 2)] ∧
      (i.rawCm = 50 →
        (loop s i).1.distance = 50 ∧ (loop s i).1.interval = 5000 ∧
        (loop s i).1.buzzerLength = 2500)) ∧
    (i.pir = false →
      (loop s i).1.distance = s.distance ∧
      (loop s i).2 =
        [Action.digitalWrite redPin 255, Action.digitalWrite greenPin 0,
         Action.digitalWrite bluePin 0] ++ (checkPassword s i.keyArmed).2 ++
        [Action.lcdSetCursor 0 1, Action.lcdPrint "         ", Action.lcdSetCursor 0 0,
         Action.lcdPrint "System: Armed   ",
         Action.digitalRead pirPin 0, Action.delay 10, Action.delay 50,
         Action.noTone buzzerPin, Action.digitalWrite redPin 255,
         Action.digitalWrite greenPin 0, Action.digitalWrite bluePin 0] ∧
      toneCalls (loop s i).2 = [] ∧
      distanceRead (loop s i).2 = false ∧
      (∀ c, ledAfter c ((loop s i).2.take 3) = (true, false, false)) ∧
      (∀ c, ledAfter c (loop s i).2 = (true, false, false))) := by
  obtain ⟨f1, -, -, -⟩ := checkPassword_frame s i.keyArmed
  obtain ⟨t1, t2, t3⟩ := checkPassword_calls s i.keyArmed
  rw [loop_armed s i ha]
  constructor
  · intro hp
    obtain ⟨r0, r1⟩ := constrain_range i.rawCm
    have hm := motionDetected_eq
      (checkDistance (checkMotion (checkPassword s i.keyArmed).1 true).1 i.pulse i.rawCm).1
      r0 r1
    have hq : (checkMotion (checkPassword s i.keyArmed).1 true).1.pirState = 1 := rfl
    have hb : armedBody s i =
        ({ (checkPassword s i.keyArmed).1 with
            pirState := 1, duration := i.pulse, distance := constrain i.rawCm 0 300,
            interval := constrain i.rawCm 0 300 * 100,
            buzzerLength := constrain i.rawCm 0 300 * 100 / 2 },
         [Action.digitalWrite redPin 255, Action.digitalWrite greenPin 0,
          Action.digitalWrite bluePin 0] ++ (checkPassword s i.keyArmed).2 ++
         [Action.lcdSetCursor 0 1, Action.lcdPrint "         ", Action.lcdSetCursor 0 0,
          Action.lcdPrint "System: Armed   ",
          Action.digitalRead pirPin 1, Action.delay 10, Action.delay 50,
          Action.digitalWrite trigPin LOW, Action.delayMicroseconds 2,
          Action.digitalWrite trigPin HIGH, Action.delayMicroseconds 10,
          Action.digitalWrite trigPin LOW, Action.pulseIn echoPin i.pulse,
          Action.tone buzzerPin 850 (constrain i.rawCm 0 300 * 100 / 2),
          Action.digitalWrite redPin 255, Action.digitalWrite greenPin 255,
          Action.digitalWrite bluePin 255,
          Action.delay (constrain i.rawCm 0 300 * 100),
          Action.tone buzzerPin 850 (constrain i.rawCm 0 300 * 100 / 2),
          Action.digitalWrite redPin 0, Action.digitalWrite greenPin 0,
          Action.digitalWrite bluePin 255,
          Action.delay (constrain i.rawCm 0 300 * 100)]) := by
      simp only [armedBody, armedMonitor, he, if_true, hp, hq, hm]
      simp [checkDistance, checkMotion, pinValue, he]
    rw [hb]
    refine ⟨rfl, ⟨r0, r1⟩, rfl, rfl, rfl, ?_, ?_⟩
    · simp only [toneCalls_append, t1]
      rfl
    · intro h50
      simp only [h50]
      exact ⟨rfl, rfl, rfl⟩
  · intro hp
    have hb : armedBody s i =
        ({ (checkPassword s i.keyArmed).1 with pirState := 0 },
         [Action.digitalWrite redPin 255, Action.digitalWrite greenPin 0,
          Action.digitalWrite bluePin 0] ++ (checkPassword s i.keyArmed).2 ++
         [Action.lcdSetCursor 0 1, Action.lcdPrint "         ", Action.lcdSetCursor 0 0,
          Action.lcdPrint "System: Armed   ",
          Action.digitalRead pirPin 0, Action.delay 10, Action.delay 50,
          Action.noTone buzzerPin, Action.digitalWrite redPin 255,
          Action.digitalWrite greenPin 0, Action.digitalWrite bluePin 0]) := by
      simp [armedBody, armedMonitor, he, checkMotion, hp, pinValue, noMotion]
    rw [hb]
    refine ⟨f1, rfl, ?_, ?_, fun c => rfl, fun c => ?_⟩
    · simp only [toneCalls_append, t1]
      rfl
    · simp only [distanceRead_append, t3]
      rfl
    · simp only [ledAfter_append, t2]
      rfl

theorem armed_pass_monitor_witness :
    (loop (run boot armInputs).1 (motionAt 2942 50)).1.distance = 50 ∧
    (loop (run boot armInputs).1 (motionAt 2942 50)).1.interval = 5000 ∧
    (loop (run boot armInputs).1 (motionAt 2942 50)).1.buzzerLength = 2500 :=
  ((armed_pass_monitor (run boot armInputs).1 (motionAt 2942 50) (by decide) (by decide)).1
    rfl).2.2.2.2.2.2 rfl

/-! ## The toggle button -/

theorem armedBlock_frame (s : State) (i : PassInput) :
    (armedBlock s i).1.displayState = s.displayState ∧
    (armedBlock s i).1.buttonState = s.buttonState := by
  obtain ⟨-, f2, -, f4⟩ := checkPassword_frame s i.keyArmed
  unfold armedBlock armedBody armedMonitor
  simp only
  split_ifs <;> first
    | exact ⟨rfl, rfl⟩
    | exact ⟨f2, f4⟩

/-- A pass from mode 0 with the buffer empty after the keypad poll: the display flag is
negated if the button pin reads low and kept if it reads high. -/
theorem loop_button (s : State) (i : PassInput) (h0 : s.alarmState = 0)
    (he : (checkPassword s i.keyDisarmed).1.enteredPassword = []) :
    (loop s i).1.displayState
        = (if i.button = false then s.displayState * -1 else s.displayState) ∧
    (loop s i).1.buttonState = pinValue i.button := by
  obtain ⟨-, f2, -, -⟩ := checkPassword_frame s i.keyDisarmed
  obtain ⟨a1, a2⟩ := armedBlock_frame (disarmedBlock s i).1 i
  have hloop : loop s i = ((armedBlock (disarmedBlock s i).1 i).1,
      (disarmedBlock s i).2 ++ (armedBlock (disarmedBlock s i).1 i).2) := rfl
  rw [hloop]
  simp only
  rw [a1, a2]
  simp only [disarmedBlock, h0, if_true, disarmedBody, he, checkButton]
  cases hb : i.button <;> simp [pinValue, f2]

/-- C9, amended: in a pass from mode 0 with the buffer empty after the keypad poll, the
display flag is negated if the button pin reads low (pressed) in that pass and kept if it
reads high, whatever the previous poll read; from a reachable state the flag changes
exactly if the pin reads low; over consecutive passes without a key in which the button is
held down, from an empty buffer, the flag is negated once per pass. -/
theorem button_level_toggle (s : State) (h0 : s.alarmState = 0) :
    (∀ i : PassInput, (checkPassword s i.keyDisarmed).1.enteredPassword = [] →
      (loop s i).1.displayState
          = (if i.button = false then s.displayState * -1 else s.displayState) ∧
      (loop s i).1.buttonState = pinValue i.button ∧
      (Reachable s → ((loop s i).1.displayState ≠ s.displayState ↔ i.button = false))) ∧
    (s.enteredPassword = [] →
      ∀ inputs : List PassInput,
        (∀ i ∈ inputs, keyPositive i.keyDisarmed = false ∧ i.button = false) →
        (run s inputs).1.displayState = s.displayState * (-1) ^ inputs.length) := by
  constructor
  · intro i he
    obtain ⟨l1, l2⟩ := loop_button s i h0 he
    refine ⟨l1, l2, fun hr => ?_⟩
    have hd := (inv_of_reachable s hr).2.2.1
    rw [l1]
    cases hb : i.button <;> rcases hd with hd | hd <;> simp [hd]
  · intro hnil inputs
    induction inputs generalizing s with
    | nil => intro _; simp [run]
    | cons i rest ih =>
      intro hall
      obtain ⟨hk, hb⟩ := hall i (List.mem_cons_self i rest)
      have hcp := checkPassword_noKey s i.keyDisarmed hk (by rw [hnil]; decide)
      have he : (checkPassword s i.keyDisarmed).1.enteredPassword = [] := by
        rw [hcp]; exact hnil
      obtain ⟨l1, -⟩ := loop_button s i h0 he
      have hg : accessGranted (loop s i).2 = false := by
        cases hc : accessGranted (loop s i).2
        · rfl
        · rw [accessGranted_iff] at hc
          have hloop : loop s i = ((armedBlock (disarmedBlock s i).1 i).1,
            (disarmedBlock s i).2 ++ (armedBlock (disarmedBlock s i).1 i).2) := rfl
          obtain ⟨d1, -, -, d4⟩ := disarmedBlock_effect s i
          obtain ⟨-, -, a4⟩ := armedBlock_effect (disarmedBlock s i).1 i
          simp only [h0, if_true] at d1 d4
          rw [hcp] at d1 d4
          simp only at d1
          rw [hloop] at hc
          simp only [grantedCount_append, d4, a4, d1, h0] at hc
          simp [grantedCount] at hc
      obtain ⟨-, k2⟩ := loop_disarmed_keeps s i h0 hg
      have hbuf : (loop s i).1.enteredPassword = [] := by
        have hloop : loop s i = ((armedBlock (disarmedBlock s i).1 i).1,
          (disarmedBlock s i).2 ++ (armedBlock (disarmedBlock s i).1 i).2) := rfl
        obtain ⟨d1, d2, -, -⟩ := disarmedBlock_effect s i
        obtain ⟨-, a2, -⟩ := armedBlock_effect (disarmedBlock s i).1 i
        simp only [h0, if_true] at d1 d2
        rw [hcp] at d1 d2
        simp only at d1 d2
        rw [hloop]
        simp only
        rw [a2, d1, h0, d2]
        simp [hnil]
      have hrest := ih (loop s i).1 k2 hbuf
        (fun x hx => hall x (List.mem_cons_of_mem i hx))
      simp only [run, List.length_cons]
      rw [hrest, l1, hb]
      simp only [if_true]
      rw [pow_succ]
      ring

theorem button_level_toggle_witness :
    (run boot [buttonDown, buttonDown, buttonDown]).1.displayState
      = boot.displayState * (-1) ^ [buttonDown, buttonDown, buttonDown].length :=
  (button_level_toggle boot rfl).2 rfl [buttonDown, buttonDown, buttonDown] (by decide)

/-- C9 as stated fails: after a pass in which the button was read down, a second pass in
which it is still down (so not released in the previous poll) negates the display flag
again; over the two passes of one press the flag returns to its first value. -/
theorem button_edge_counterexample :
    (loop boot buttonDown).1.alarmState = 0 ∧
    (loop boot buttonDown).1.enteredPassword = [] ∧
    (loop boot buttonDown).1.buttonState = 0 ∧
    (loop boot buttonDown).1.displayState = -1 ∧
    (loop (loop boot buttonDown).1 buttonDown).1.displayState = 1 ∧
    ¬ ((loop (loop boot buttonDown).1 buttonDown).1.displayState
          ≠ (loop boot buttonDown).1.displayState ↔
        (buttonDown.button = false ∧ (loop boot buttonDown).1.buttonState = 1)) := by
  decide

/-! ## The last-detection screen after a reading of 0 cm -/

/-- C7 at a failing input: the system is armed, a distance reading is taken and stores
0 cm, the system is disarmed and the button is pressed; the pass shows "Last Detection: "
with "N/A" on the second line although a reading was taken. -/
theorem lastDetection_after_zero_reading :
    distanceRead (run boot (armWithZeroReading ++ disarmInputs)).2 = true ∧
    (run boot (armWithZeroReading ++ disarmInputs)).1.alarmState = 0 ∧
    (run boot (armWithZeroReading ++ disarmInputs)).1.enteredPassword = [] ∧
    (run boot (armWithZeroReading ++ disarmInputs)).1.distance = 0 ∧
    (loop (run boot (armWithZeroReading ++ disarmInputs)).1 buttonDown).1.displayState = -1 ∧
    (loop (run boot (armWithZeroReading ++ disarmInputs)).1 buttonDown).2 =
      [Action.digitalWrite redPin 0, Action.digitalWrite greenPin 255,
       Action.digitalWrite bluePin 0, Action.getKey NO_KEY,
       Action.digitalRead toggleBtn 0, Action.delay 50, Action.delay 50,
       Action.lcdSetCursor 0 0, Action.lcdPrint "Last Detection: ",
       Action.lcdSetCursor 0 1, Action.lcdPrint "N/A"] := by
  decide

/-! ## The alert cycle in the pass that disarms -/

/-- C10 at a failing input: the system is armed and "123" is typed; in the pass in which
the key 4 is polled while motion is sensed, `checkPassword` takes the accepted branch and
sets the mode to 0, and the rest of the armed branch then polls the motion sensor,
measures the distance and runs an alert cycle (two tones of 2500 ms) in mode 0. -/
theorem alert_cycle_after_disarm :
    (run boot armThenThreeKeys).1.alarmState = 1 ∧
    (checkPassword (run boot armThenThreeKeys).1 '4').1.alarmState = 0 ∧
    accessGranted (checkPassword (run boot armThenThreeKeys).1 '4').2 = true ∧
    (loop (run boot armThenThreeKeys).1 fourthKeyWithMotion).2 =
      [Action.digitalWrite redPin 255, Action.digitalWrite greenPin 0,
       Action.digitalWrite bluePin 0] ++
      (checkPassword (run boot armThenThreeKeys).1 '4').2 ++
      (armedMonitor (checkPassword (run boot armThenThreeKeys).1 '4').1
        fourthKeyWithMotion).2 ∧
    (armedMonitor (checkPassword (run boot armThenThreeKeys).1 '4').1
        fourthKeyWithMotion).2 =
      [Action.lcdSetCursor 0 1, Action.lcdPrint "         ", Action.lcdSetCursor 0 0,
       Action.lcdPrint "System: Armed   ",
       Action.digitalRead pirPin 1, Action.delay 10, Action.delay 50,
       Action.digitalWrite trigPin LOW, Action.delayMicroseconds 2,
       Action.digitalWrite trigPin HIGH, Action.delayMicroseconds 10,
       Action.digitalWrite trigPin LOW, Action.pulseIn echoPin 2942,
       Action.tone buzzerPin 850 2500,
       Action.digitalWrite redPin 255, Action.digitalWrite greenPin 255,
       Action.digitalWrite bluePin 255, Action.delay 5000,
       Action.tone buzzerPin 850 2500,
       Action.digitalWrite redPin 0, Action.digitalWrite greenPin 0,
       Action.digitalWrite bluePin 255, Action.delay 5000] ∧
    motionPolled (armedMonitor (checkPassword (run boot armThenThreeKeys).1 '4').1
        fourthKeyWithMotion).2 = true ∧
    distanceRead (armedMonitor (checkPassword (run boot armThenThreeKeys).1 '4').1
        fourthKeyWithMotion).2 = true ∧
    (loop (run boot armThenThreeKeys).1 fourthKeyWithMotion).1.alarmState = 0 ∧
    (loop (run boot armThenThreeKeys).1 fourthKeyWithMotion).1.distance = 50 := by
  decide

end HomeSecurity
